import Mathlib

/-!
Shallow embedding of `o365.py`: a batch processor that creates, updates and
deletes Office365 users through the Graph REST API.

The network is modelled as an oracle `Env : Nat → Outcome` giving the outcome
of the n-th HTTP call of the run (`status code body` for a completed response,
`exn` for a transport/parse exception raised inside the corresponding `try`
block).  The mutable process state (the global `ACCESS_TOKEN` and, for
specification purposes, the trace of issued requests) is passed explicitly.
-/

namespace O365

/-- JSON-like values: the Python dict/list/str literals passed to
`json.dumps` when building request bodies. -/
inductive JVal where
  | str (s : String)
  | arr (xs : List JVal)
  | obj (fields : List (String × JVal))

/-- A request body: `""`-style raw bodies (GET/DELETE), url-encoded form
bodies (the token exchange) and JSON bodies. -/
inductive ReqBody where
  | raw (s : String)
  | form (kvs : List (String × String))
  | json (j : JVal)

/-- One HTTP request as issued by `httplib.HTTPSConnection(host).request`. -/
structure Request where
  host : String
  method : String
  path : String
  body : ReqBody
  headers : List (String × String)

/-- Outcome of one HTTP call: a response with a status code and a body, or an
exception raised inside the surrounding `try` block (transport failure, or
for the token exchange also a JSON-parse failure). -/
inductive Outcome where
  | status (code : Nat) (body : String)
  | exn

/-- The external world: outcome of the n-th network call of the run. -/
def Env : Type := Nat → Outcome

/-- Settings loaded from `o365settings.py` by `readConfig`. -/
structure Settings where
  API_VERSION : String
  CLIENT_ID : String
  CLIENT_KEY : String
  O365DOMAIN : String
  STUPATTERN : String
  STULICENSE : String
  EMPLICENSE : String
  DISABLEDPLANS : List String

/-- Process state: the global `ACCESS_TOKEN` (None initially) and the trace
of issued requests (the trace is the observation the specification talks
about; the Python program does not store it). -/
structure St where
  token : Option String
  trace : List Request

/-- Python truthiness of the `ACCESS_TOKEN` global as used in
`if not ACCESS_TOKEN:`: `None` and the empty string are falsy. -/
def isFalsy : Option String → Bool
  | none => true
  | some s => s == ""

/-- `urllib.urlencode({'api-version': API_VERSION})`. -/
def apiParams (cfg : Settings) : String :=
  "api-version=" ++ cfg.API_VERSION

/-- Issue one request: record it in the trace and ask the environment for
the outcome of this (the `st.trace.length`-th) call. -/
def doRequest (env : Env) (st : St) (r : Request) : Outcome × St :=
  (env st.trace.length, { st with trace := st.trace ++ [r] })

/-- The client-credentials token request sent by `graphConnect`. -/
def authRequest (cfg : Settings) : Request :=
  { host := "login.windows.net"
    method := "POST"
    path := "/" ++ cfg.O365DOMAIN ++ "/oauth2/token?" ++ apiParams cfg
    body := .form [("redirect_uri", "http://127.0.0.1:8000"),
                   ("grant_type", "client_credentials"),
                   ("client_id", cfg.CLIENT_ID),
                   ("client_secret", cfg.CLIENT_KEY),
                   ("resource", "https://graph.windows.net/")]
    headers := [] }

/-- `graphConnect()`: POST the client-credentials exchange; on a 200 response
the parsed `access_token` (carried here as the response body) is stored in
the global; on any other status, or on an exception (transport failure or
unparsable body), the global is left unchanged. -/
def graphConnect (cfg : Settings) (env : Env) (st : St) : St :=
  let r := doRequest env st (authRequest cfg)
  match r.1 with
  | .status 200 body => { r.2 with token := some body }
  | _ => r.2

/-- The GET-by-principal-name request sent by `findUser`. -/
def findUserRequest (cfg : Settings) (tok upn : String) : Request :=
  { host := "graph.windows.net"
    method := "GET"
    path := "/" ++ cfg.O365DOMAIN ++ "/users/" ++ upn ++ "?" ++ apiParams cfg
    body := .raw ""
    headers := [("Authorization", "Bearer " ++ tok),
                ("Content-Type", "application/json")] }

/-- `findUser(upn)`: GET the user.  A non-200 status returns False; a 200
response falls through to `return True`; an exception inside the `try` is
caught, logged, and also falls through to `return True`.  (All call sites
have checked that `ACCESS_TOKEN` is truthy, so the token is present.) -/
def findUser (cfg : Settings) (env : Env) (st : St) (upn : String) :
    Bool × St :=
  let tok := st.token.getD ""
  let r := doRequest env st (findUserRequest cfg tok upn)
  match r.1 with
  | .status code _ => (code == 200, r.2)
  | .exn => (true, r.2)

/-- Python substring test `needle in hay` on the underlying char lists. -/
def listContains (needle : List Char) : List Char → Bool
  | [] => needle.isEmpty
  | c :: rest => needle.isPrefixOf (c :: rest) || listContains needle rest

/-- `getUserType(username)`: "STU" when the configured student pattern is a
substring of the username, else "EMP". -/
def getUserType (cfg : Settings) (username : String) : String :=
  if listContains cfg.STUPATTERN.data username.data then "STU" else "EMP"

/-- The per-field validation error message built by `create`/`update`. -/
def missingMsg (item : String) : String :=
  "ERROR: Missing an expected input value for " ++ item ++ " in input file."

/-- The authentication failure result shared by all three actions. -/
def authErrMsg : String :=
  "ERROR: unable to authenticate to MSFT login service."

/-- The `for _item in params: if str(params[_item]) == ""` loop over the
function's parameters (CPython iterates `locals()` in an unspecified order;
modelled in parameter-declaration order — the claims proved below do not
depend on which empty field is reported first). -/
def firstEmpty : List (String × String) → Option String
  | [] => none
  | (k, v) :: rest => if v = "" then some k else firstEmpty rest

/-- The JSON body of the create (POST `/users`) request. -/
def createBody (upn givenName fullName sn username ou UDCid
    userPassword : String) : JVal :=
  .obj [("userPrincipalName", .str upn),
        ("accountEnabled", .str "true"),
        ("givenName", .str givenName),
        ("displayName", .str fullName),
        ("surname", .str sn),
        ("mailNickname", .str username),
        ("department", .str ou),
        ("immutableId", .str UDCid),
        ("passwordProfile", .obj [("password", .str userPassword),
              ("forceChangePasswordNextLogin", .str "false")]),
        ("passwordPolicies", .str "DisablePasswordExpiration"),
        ("usageLocation", .str "US")]

/-- The POST `/users` request sent by `create`. -/
def createUserRequest (cfg : Settings) (tok : String) (b : JVal) : Request :=
  { host := "graph.windows.net"
    method := "POST"
    path := "/" ++ cfg.O365DOMAIN ++ "/users?" ++ apiParams cfg
    body := .json b
    headers := [("Authorization", "Bearer " ++ tok),
                ("Content-Type", "application/json; charset=utf-8")] }

/-- The JSON body of the license-assignment request
(`{"addLicenses": [{"disabledPlans": ..., "skuId": ...}], "removeLicenses": []}`). -/
def licenseBody (cfg : Settings) (sku : String) : JVal :=
  .obj [("addLicenses", .arr [.obj
          [("disabledPlans", .arr (cfg.DISABLEDPLANS.map .str)),
           ("skuId", .str sku)]]),
        ("removeLicenses", .arr [])]

/-- The POST `/users/{upn}/assignLicense` request sent by `create`. -/
def licenseRequest (cfg : Settings) (tok upn : String) (b : JVal) : Request :=
  { host := "graph.windows.net"
    method := "POST"
    path := "/" ++ cfg.O365DOMAIN ++ "/users/" ++ upn ++ "/assignLicense?"
              ++ apiParams cfg
    body := .json b
    headers := [("Authorization", "Bearer " ++ tok),
                ("Content-Type", "application/json; charset=utf-8")] }

/-- The JSON body of the update (PATCH) request. -/
def updateBody (newupn accountEnabled givenName fullName sn newusername
    ou : String) : JVal :=
  .obj [("userPrincipalName", .str newupn),
        ("accountEnabled", .str accountEnabled),
        ("givenName", .str givenName),
        ("displayName", .str fullName),
        ("surname", .str sn),
        ("mailNickname", .str newusername),
        ("department", .str ou)]

/-- The PATCH `/users/{upn}` request sent by `update`. -/
def patchRequest (cfg : Settings) (tok upn : String) (b : JVal) : Request :=
  { host := "graph.windows.net"
    method := "PATCH"
    path := "/" ++ cfg.O365DOMAIN ++ "/users/" ++ upn ++ "?" ++ apiParams cfg
    body := .json b
    headers := [("Authorization", "Bearer " ++ tok),
                ("Content-Type", "application/json; charset=utf-8")] }

/-- The DELETE `/users/{upn}` request sent by `delete`. -/
def deleteRequest (cfg : Settings) (tok upn : String) : Request :=
  { host := "graph.windows.net"
    method := "DELETE"
    path := "/" ++ cfg.O365DOMAIN ++ "/users/" ++ upn ++ "?" ++ apiParams cfg
    body := .raw ""
    headers := [("Authorization", "Bearer " ++ tok),
                ("Content-Type", "application/json")] }

/-- The eight parameters of `create`, with their Python parameter names, in
declaration order, as captured by `params = locals()`. -/
def createFields (u ld udc gn fn sn ou pw : String) :
    List (String × String) :=
  [("username", u), ("loginDisabled", ld), ("UDCid", udc),
   ("givenName", gn), ("fullName", fn), ("sn", sn), ("ou", ou),
   ("userPassword", pw)]

/-- `create(username, loginDisabled, UDCid, givenName, fullName, sn, ou,
userPassword)`, translated branch for branch from the source. -/
def create (cfg : Settings) (env : Env) (st : St)
    (username loginDisabled UDCid givenName fullName sn ou
     userPassword : String) : String × St :=
  match firstEmpty (createFields username loginDisabled UDCid givenName
      fullName sn ou userPassword) with
  | some k => (missingMsg k, st)
  | none =>
    -- if not ACCESS_TOKEN: graphConnect(); if not ACCESS_TOKEN: abort
    let st1 := if isFalsy st.token then graphConnect cfg env st else st
    if isFalsy st1.token then (authErrMsg, st1)
    else
      let tok := st1.token.getD ""
      let upn := username ++ "@" ++ cfg.O365DOMAIN
      let f := findUser cfg env st1 upn
      if f.1 then ("ERROR: username already taken!", f.2)
      else
        let r := doRequest env f.2 (createUserRequest cfg tok
            (createBody upn givenName fullName sn username ou UDCid
              userPassword))
        match r.1 with
        | .exn => ("ERROR: could not create o365 user.", r.2)
        | .status code _ =>
          if code ≠ 201 then
            ("ERROR: user could not be created in o365.", r.2)
          else
            let sku := if getUserType cfg username = "STU" then
                cfg.STULICENSE else cfg.EMPLICENSE
            let r2 := doRequest env r.2 (licenseRequest cfg tok upn
                (licenseBody cfg sku))
            match r2.1 with
            | .exn => ("ERROR: could not create o365 user.", r2.2)
            | .status code2 _ =>
              if code2 ≠ 200 then
                ("SUCCESS: user added but with no licenses in o365.", r2.2)
              else
                ("SUCCESS: user was created in o365.", r2.2)

/-- The seven parameters of `update`, with their Python parameter names, in
declaration order, as captured by `params = locals()`. -/
def updateFields (u nu ld gn fn sn ou : String) : List (String × String) :=
  [("username", u), ("newusername", nu), ("loginDisabled", ld),
   ("givenName", gn), ("fullName", fn), ("sn", sn), ("ou", ou)]

/-- The `try` block of `update`.  In the source, the local `newupn` is only
assigned inside the rename branch (`if username != newusername`); in the
non-renaming case the expression `"userPrincipalName": newupn` raises a
`NameError` while the body dict is being built — before `conn.request` — and
the surrounding `except` turns it into the generic update error.  `newupn?`
is `none` exactly when `newupn` is unbound at this point. -/
def updatePatch (cfg : Settings) (env : Env) (st : St) (tok upn : String)
    (newupn? : Option String)
    (newusername loginDisabled givenName fullName sn ou : String) :
    String × St :=
  match newupn? with
  | none => ("ERROR: Could not update o365 user.", st)
  | some newupn =>
    let accountEnabled := if loginDisabled = "True" then "False" else "True"
    let r := doRequest env st (patchRequest cfg tok upn
        (updateBody newupn accountEnabled givenName fullName sn
          newusername ou))
    match r.1 with
    | .exn => ("ERROR: Could not update o365 user.", r.2)
    | .status code _ =>
      if code ≠ 204 then ("ERROR: could not update user in o365.", r.2)
      else ("SUCCESS: user was updated in o365.", r.2)

/-- `update(username, newusername, loginDisabled, givenName, fullName, sn,
ou)`, translated branch for branch from the source. -/
def update (cfg : Settings) (env : Env) (st : St)
    (username newusername loginDisabled givenName fullName sn
     ou : String) : String × St :=
  match firstEmpty (updateFields username newusername loginDisabled
      givenName fullName sn ou) with
  | some k => (missingMsg k, st)
  | none =>
    let st1 := if isFalsy st.token then graphConnect cfg env st else st
    if isFalsy st1.token then (authErrMsg, st1)
    else
      let tok := st1.token.getD ""
      let upn := username ++ "@" ++ cfg.O365DOMAIN
      let f := findUser cfg env st1 upn
      if !f.1 then ("ERROR: user could not be found in o365!", f.2)
      else
        if username ≠ newusername then
          let newupn := newusername ++ "@" ++ cfg.O365DOMAIN
          let f2 := findUser cfg env f.2 newupn
          if f2.1 then ("ERROR: username already taken!", f2.2)
          else
            updatePatch cfg env f2.2 tok upn (some newupn) newusername
              loginDisabled givenName fullName sn ou
        else
          updatePatch cfg env f.2 tok upn none newusername loginDisabled
            givenName fullName sn ou

/-- `delete(username)`, translated branch for branch from the source. -/
def delete (cfg : Settings) (env : Env) (st : St) (username : String) :
    String × St :=
  if username = "" then
    ("ERROR: Missing an expected input value for username in input file.",
     st)
  else
    let st1 := if isFalsy st.token then graphConnect cfg env st else st
    if isFalsy st1.token then (authErrMsg, st1)
    else
      let tok := st1.token.getD ""
      let upn := username ++ "@" ++ cfg.O365DOMAIN
      let f := findUser cfg env st1 upn
      if !f.1 then ("ERROR: user could not be found in o365!", f.2)
      else
        let r := doRequest env f.2 (deleteRequest cfg tok upn)
        match r.1 with
        | .exn => ("ERROR: Could not delete o365 user.", r.2)
        | .status code _ =>
          if code ≠ 204 then ("ERROR: could not delete user in o365.", r.2)
          else ("SUCCESS: user deleted in o365.", r.2)

/-- One input record of the `useractions` array: a JSON object, modelled as
an association list from field names to (stringified) values. -/
abbrev Row : Type := List (String × String)

/-- `row[k]` as a partial lookup; `none` models the `KeyError` raised when
the key is absent. -/
def getField (row : Row) (k : String) : Option String :=
  (row.find? (fun p => p.1 == k)).map (fun p => p.2)

/-- Processing of one row by `main`'s loop body: dispatch on `row["action"]`,
call the action, then `writer.writerow([row["action"], row["username"],
result])`.  The first component is `some outputRow` when the row completes
and a CSV row is written; it is `none` when a `KeyError` (missing field key)
escapes the loop body — `main`'s blanket `except` then ends the whole loop,
so no output row is written for this row. -/
def processRow (cfg : Settings) (env : Env) (st : St) (row : Row) :
    Option (List String) × St :=
  match getField row "action" with
  | none => (none, st)
  | some act =>
    if act = "create" then
      match getField row "username", getField row "loginDisabled",
            getField row "UDCid", getField row "givenName",
            getField row "fullName", getField row "sn",
            getField row "primO", getField row "userPassword" with
      | some u, some ld, some udc, some gn, some fn, some sn, some po,
        some pw =>
        let r := create cfg env st u ld udc gn fn sn po pw
        (some [act, u, r.1], r.2)
      | _, _, _, _, _, _, _, _ => (none, st)
    else if act = "update" then
      match getField row "username", getField row "newusername",
            getField row "loginDisabled", getField row "givenName",
            getField row "fullName", getField row "sn",
            getField row "primO" with
      | some u, some nu, some ld, some gn, some fn, some sn, some po =>
        let r := update cfg env st u nu ld gn fn sn po
        (some [act, u, r.1], r.2)
      | _, _, _, _, _, _, _ => (none, st)
    else if act = "delete" then
      match getField row "username" with
      | some u =>
        let r := delete cfg env st u
        (some [act, u, r.1], r.2)
      | none => (none, st)
    else
      match getField row "username" with
      | some u => (some [act, u, "ERROR: Unrecognized action."], st)
      | none => (none, st)

/-- `main`'s `for row in reader["useractions"]` loop: rows are processed in
order; the first row whose processing raises ends the loop (the exception is
caught by `main`'s blanket `except`, logged, and the run moves on to closing
the files), so the remaining rows produce no output.  Returns the written
data rows (the header row `action,username,result` is written before the
loop and not modelled here) and the final state. -/
def runRows (cfg : Settings) (env : Env) (st : St) :
    List Row → List (List String) × St
  | [] => ([], st)
  | row :: rest =>
    let p := processRow cfg env st row
    match p.1 with
    | none => ([], p.2)
    | some out =>
      let q := runRows cfg env p.2 rest
      (out :: q.1, q.2)

/-- The state after `readConfig`: `ACCESS_TOKEN = None`, no request issued. -/
def initState : St := { token := none, trace := [] }

/-- A request to the identity/token endpoint (the only host `graphConnect`
talks to); all directory requests go to the graph host instead. -/
def isAuthReq (r : Request) : Bool := r.host == "login.windows.net"

/-- A directory PATCH request (only `update` issues these). -/
def isPatchReq (r : Request) : Bool := r.method == "PATCH"

/-- Number of token-exchange requests in a trace. -/
def authCount (t : List Request) : Nat := t.countP (fun r => isAuthReq r)

/-- `p` is a leading substring of `s`. -/
def strStarts (p s : String) : Bool := p.data.isPrefixOf s.data

/-- A result string of the documented shape: begins with `SUCCESS:` or
`ERROR:`. -/
def resultOk (s : String) : Bool :=
  strStarts "SUCCESS:" s || strStarts "ERROR:" s

/-- The field names of a JSON-object request body (empty for raw and form
bodies). -/
def bodyKeys : ReqBody → List String
  | .json (.obj fields) => fields.map (fun p => p.1)
  | _ => []

/-- Concrete settings used by witnesses and counterexamples. -/
def cfg0 : Settings :=
  { API_VERSION := "1.6", CLIENT_ID := "id", CLIENT_KEY := "key",
    O365DOMAIN := "dom.edu", STUPATTERN := "_", STULICENSE := "stu",
    EMPLICENSE := "emp", DISABLEDPLANS := ["p1", "p2"] }

/-- Field lookup in a JSON-object value. -/
def jsonField (j : JVal) (k : String) : Option JVal :=
  match j with
  | .obj fs => (fs.find? (fun p => p.1 == k)).map (fun p => p.2)
  | _ => none

/-- The required input keys of a create row, as read by `main`. -/
def createKeys : List String :=
  ["username", "loginDisabled", "UDCid", "givenName", "fullName", "sn",
   "primO", "userPassword"]

/-- The required input keys of an update row, as read by `main`. -/
def updateKeys : List String :=
  ["username", "newusername", "loginDisabled", "givenName", "fullName",
   "sn", "primO"]

/-- A row carries every key that `main` will read for its action (so that no
`KeyError` can escape the loop body). -/
def rowComplete (row : Row) : Bool :=
  match getField row "action" with
  | none => false
  | some act =>
    let keys := if act = "create" then createKeys
                else if act = "update" then updateKeys
                else ["username"]
    keys.all (fun k => (getField row k).isSome)

/-- An environment in which every call raises a transport exception. -/
def envExn : Env := fun _ => .exn

/-- An environment in which every call completes with status 400 (in
particular every token exchange fails). -/
def envAuthFail : Env := fun _ => .status 400 ""

/-- Environment for a non-renaming update: the user exists (200) and any
PATCH that were issued would succeed (204). -/
def envU : Env := fun n => if n = 0 then .status 200 "" else .status 204 ""

/-- Environment for a create: user absent (404), create succeeds (201),
license assignment fails (500). -/
def envC5 : Env := fun n =>
  if n = 0 then .status 404 ""
  else if n = 1 then .status 201 "" else .status 500 ""

/-- Environment for a renaming update: current user exists (200), rename
target is free (404), the PATCH succeeds (204). -/
def envW : Env := fun n =>
  if n = 0 then .status 200 ""
  else if n = 1 then .status 404 "" else .status 204 ""

/-- A state with a cached token and an empty trace. -/
def st0 : St := { token := some "t", trace := [] }

/-- A batch whose first row is an update row missing its other required
keys (reading `row["newusername"]` raises `KeyError`), followed by a
well-formed row. -/
def rows0 : List Row :=
  [[("action", "update"), ("username", "x")],
   [("action", "bogus"), ("username", "y")]]

/-- A complete create row. -/
def createRow : Row :=
  [("action", "create"), ("username", "u"), ("loginDisabled", "False"),
   ("UDCid", "1"), ("givenName", "g"), ("fullName", "f"), ("sn", "s"),
   ("primO", "o"), ("userPassword", "p")]

/-- A batch of two complete rows: an unrecognized action and a delete. -/
def rows1 : List Row :=
  [[("action", "bogus"), ("username", "y")],
   [("action", "delete"), ("username", "z")]]

/-! ### Helper lemmas -/

theorem strStarts_append (p a b : String) (h : strStarts p a = true) :
    strStarts p (a ++ b) = true := by
  simp only [strStarts, String.data_append] at *
  exact ( List.isPrefixOf_iff_prefix).2
    ((( List.isPrefixOf_iff_prefix).1 h).trans (List.prefix_append _ _))

theorem resultOk_missingMsg (k : String) : resultOk (missingMsg k) = true := by
  have h1 : strStarts "ERROR:"
      "ERROR: Missing an expected input value for " = true := by decide
  have h2 := strStarts_append _ _ k h1
  have h3 := strStarts_append _ _ " in input file." h2
  simp [resultOk, missingMsg, h3]

theorem firstEmpty_none_iff (l : List (String × String)) :
    firstEmpty l = none ↔ ∀ p ∈ l, p.2 ≠ "" := by
  induction l with
  | nil => simp [firstEmpty]
  | cons p rest ih =>
    obtain ⟨k, v⟩ := p
    by_cases hv : v = ""
    · subst hv
      simp [firstEmpty]
    · simp [firstEmpty, hv, ih]

theorem firstEmpty_some_mem {l : List (String × String)} {k : String}
    (h : firstEmpty l = some k) : (k, "") ∈ l := by
  induction l with
  | nil => simp [firstEmpty] at h
  | cons p rest ih =>
    obtain ⟨k', v⟩ := p
    by_cases hv : v = ""
    · subst hv
      simp [firstEmpty] at h
      subst h
      exact List.mem_cons_self _ _
    · simp [firstEmpty, hv] at h
      exact List.mem_cons_of_mem _ (ih h)

theorem firstEmpty_isSome {l : List (String × String)}
    (h : ∃ p ∈ l, p.2 = "") : ∃ k, firstEmpty l = some k := by
  match hfe : firstEmpty l with
  | some k => exact ⟨k, rfl⟩
  | none =>
    obtain ⟨p, hp, hv⟩ := h
    exact absurd hv ((firstEmpty_none_iff l).1 hfe p hp)

@[simp] theorem doRequest_fst (env : Env) (st : St) (r : Request) :
    (doRequest env st r).1 = env st.trace.length := rfl

@[simp] theorem doRequest_snd_trace (env : Env) (st : St) (r : Request) :
    (doRequest env st r).2.trace = st.trace ++ [r] := rfl

@[simp] theorem doRequest_snd_token (env : Env) (st : St) (r : Request) :
    (doRequest env st r).2.token = st.token := rfl

@[simp] theorem findUser_snd (cfg : Settings) (env : Env) (st : St)
    (upn : String) :
    (findUser cfg env st upn).2 =
      { st with trace :=
          st.trace ++ [findUserRequest cfg (st.token.getD "") upn] } := by
  cases h : env st.trace.length <;> simp [findUser, doRequest, h]

@[simp] theorem graphConnect_trace (cfg : Settings) (env : Env) (st : St) :
    (graphConnect cfg env st).trace = st.trace ++ [authRequest cfg] := by
  simp only [graphConnect]
  split <;> simp [doRequest]

theorem findUser_fst_status {env : Env} {st : St} {c : Nat} {b : String}
    (cfg : Settings) (upn : String)
    (h : env st.trace.length = Outcome.status c b) :
    (findUser cfg env st upn).1 = (c == 200) := by
  simp [findUser, doRequest, h]

theorem findUser_fst_exn {env : Env} {st : St} (cfg : Settings)
    (upn : String) (h : env st.trace.length = Outcome.exn) :
    (findUser cfg env st upn).1 = true := by
  simp [findUser, doRequest, h]

@[simp] theorem isAuthReq_authRequest (cfg : Settings) :
    isAuthReq (authRequest cfg) = true := rfl

@[simp] theorem isAuthReq_findUserRequest (cfg : Settings) (tok upn : String) :
    isAuthReq (findUserRequest cfg tok upn) = false := rfl

@[simp] theorem isAuthReq_createUserRequest (cfg : Settings) (tok : String)
    (b : JVal) : isAuthReq (createUserRequest cfg tok b) = false := rfl

@[simp] theorem isAuthReq_licenseRequest (cfg : Settings) (tok upn : String)
    (b : JVal) : isAuthReq (licenseRequest cfg tok upn b) = false := rfl

@[simp] theorem isAuthReq_patchRequest (cfg : Settings) (tok upn : String)
    (b : JVal) : isAuthReq (patchRequest cfg tok upn b) = false := rfl

@[simp] theorem isAuthReq_deleteRequest (cfg : Settings) (tok upn : String) :
    isAuthReq (deleteRequest cfg tok upn) = false := rfl

@[simp] theorem isPatchReq_authRequest (cfg : Settings) :
    isPatchReq (authRequest cfg) = false := rfl

@[simp] theorem isPatchReq_findUserRequest (cfg : Settings)
    (tok upn : String) : isPatchReq (findUserRequest cfg tok upn) = false :=
  rfl

@[simp] theorem isPatchReq_patchRequest (cfg : Settings) (tok upn : String)
    (b : JVal) : isPatchReq (patchRequest cfg tok upn b) = true := rfl

@[simp] theorem authCount_nil : authCount [] = 0 := rfl

@[simp] theorem authCount_append (s t : List Request) :
    authCount (s ++ t) = authCount s + authCount t := by
  simp [authCount, List.countP_append]

@[simp] theorem authCount_cons (r : Request) (t : List Request) :
    authCount (r :: t) = authCount t + if isAuthReq r then 1 else 0 := by
  simp [authCount, List.countP_cons]

theorem resultOk_updatePatch (cfg : Settings) (env : Env) (st : St)
    (tok upn : String) (newupn? : Option String)
    (nu ld gn fn sn ou : String) :
    resultOk (updatePatch cfg env st tok upn newupn? nu ld gn fn sn ou).1 =
      true := by
  simp only [updatePatch]
  repeat' split
  all_goals rfl

theorem resultOk_create (cfg : Settings) (env : Env) (st : St)
    (u ld udc gn fn sn ou pw : String) :
    resultOk (create cfg env st u ld udc gn fn sn ou pw).1 = true := by
  simp only [create]
  repeat' split
  all_goals first
    | exact resultOk_missingMsg _
    | rfl

theorem resultOk_update (cfg : Settings) (env : Env) (st : St)
    (u nu ld gn fn sn ou : String) :
    resultOk (update cfg env st u nu ld gn fn sn ou).1 = true := by
  simp only [update]
  repeat' split
  all_goals first
    | exact resultOk_missingMsg _
    | apply resultOk_updatePatch
    | rfl

theorem resultOk_delete (cfg : Settings) (env : Env) (st : St)
    (u : String) : resultOk (delete cfg env st u).1 = true := by
  simp only [delete]
  repeat' split
  all_goals rfl

@[simp] theorem updatePatch_token (cfg : Settings) (env : Env) (st : St)
    (tok upn : String) (newupn? : Option String)
    (nu ld gn fn sn ou : String) :
    (updatePatch cfg env st tok upn newupn? nu ld gn fn sn ou).2.token =
      st.token := by
  simp only [updatePatch]
  repeat' split
  all_goals simp

@[simp] theorem updatePatch_authCount (cfg : Settings) (env : Env) (st : St)
    (tok upn : String) (newupn? : Option String)
    (nu ld gn fn sn ou : String) :
    authCount (updatePatch cfg env st tok upn newupn? nu ld gn fn sn
      ou).2.trace = authCount st.trace := by
  simp only [updatePatch]
  repeat' split
  all_goals simp

theorem create_authCount_le (cfg : Settings) (env : Env) (st : St)
    (u ld udc gn fn sn ou pw : String) :
    authCount (create cfg env st u ld udc gn fn sn ou pw).2.trace ≤
      authCount st.trace + 1 := by
  simp only [create]
  repeat' split
  all_goals first | omega | simp

theorem update_authCount_le (cfg : Settings) (env : Env) (st : St)
    (u nu ld gn fn sn ou : String) :
    authCount (update cfg env st u nu ld gn fn sn ou).2.trace ≤
      authCount st.trace + 1 := by
  simp only [update]
  repeat' split
  all_goals first | omega | simp

theorem delete_authCount_le (cfg : Settings) (env : Env) (st : St)
    (u : String) :
    authCount (delete cfg env st u).2.trace ≤ authCount st.trace + 1 := by
  simp only [delete]
  repeat' split
  all_goals first | omega | simp

theorem create_stable (cfg : Settings) (env : Env) (st : St)
    (u ld udc gn fn sn ou pw : String) (h : isFalsy st.token = false) :
    (create cfg env st u ld udc gn fn sn ou pw).2.token = st.token ∧
    authCount (create cfg env st u ld udc gn fn sn ou pw).2.trace =
      authCount st.trace := by
  have hite : (if isFalsy st.token = true then graphConnect cfg env st
      else st) = st := by
    rw [h]
    simp
  simp only [create, hite, h, Bool.false_eq_true, if_false]
  repeat' split
  all_goals simp

theorem update_stable (cfg : Settings) (env : Env) (st : St)
    (u nu ld gn fn sn ou : String) (h : isFalsy st.token = false) :
    (update cfg env st u nu ld gn fn sn ou).2.token = st.token ∧
    authCount (update cfg env st u nu ld gn fn sn ou).2.trace =
      authCount st.trace := by
  have hite : (if isFalsy st.token = true then graphConnect cfg env st
      else st) = st := by
    rw [h]
    simp
  simp only [update, hite, h, Bool.false_eq_true, if_false]
  repeat' split
  all_goals simp

theorem delete_stable (cfg : Settings) (env : Env) (st : St) (u : String)
    (h : isFalsy st.token = false) :
    (delete cfg env st u).2.token = st.token ∧
    authCount (delete cfg env st u).2.trace = authCount st.trace := by
  have hite : (if isFalsy st.token = true then graphConnect cfg env st
      else st) = st := by
    rw [h]
    simp
  simp only [delete, hite, h, Bool.false_eq_true, if_false]
  repeat' split
  all_goals simp

theorem processRow_authCount_le (cfg : Settings) (env : Env) (st : St)
    (row : Row) :
    authCount (processRow cfg env st row).2.trace ≤
      authCount st.trace + 1 := by
  simp only [processRow]
  repeat' split
  all_goals first
    | exact Nat.le_add_right _ _
    | apply create_authCount_le
    | apply update_authCount_le
    | apply delete_authCount_le

theorem processRow_stable (cfg : Settings) (env : Env) (st : St) (row : Row)
    (h : isFalsy st.token = false) :
    (processRow cfg env st row).2.token = st.token ∧
    authCount (processRow cfg env st row).2.trace = authCount st.trace := by
  simp only [processRow]
  repeat' split
  all_goals first
    | exact ⟨rfl, rfl⟩
    | (apply create_stable; exact h)
    | (apply update_stable; exact h)
    | (apply delete_stable; exact h)

theorem runRows_authCount_le (cfg : Settings) (env : Env) :
    ∀ (rows : List Row) (st : St),
      authCount (runRows cfg env st rows).2.trace ≤
        authCount st.trace + rows.length := by
  intro rows
  induction rows with
  | nil =>
    intro st
    simp [runRows]
  | cons row rest ih =>
    intro st
    have hp := processRow_authCount_le cfg env st row
    simp only [runRows]
    split
    · simp only [List.length_cons]
      omega
    · have hr := ih (processRow cfg env st row).2
      simp only [List.length_cons]
      omega

theorem runRows_stable (cfg : Settings) (env : Env) :
    ∀ (rows : List Row) (st : St), isFalsy st.token = false →
      (runRows cfg env st rows).2.token = st.token ∧
      authCount (runRows cfg env st rows).2.trace = authCount st.trace := by
  intro rows
  induction rows with
  | nil =>
    intro st h
    simp [runRows]
  | cons row rest ih =>
    intro st h
    have hp := processRow_stable cfg env st row h
    simp only [runRows]
    split
    · exact hp
    · have h2 : isFalsy (processRow cfg env st row).2.token = false := by
        rw [hp.1]
        exact h
      have hr := ih (processRow cfg env st row).2 h2
      exact ⟨hr.1.trans hp.1, hr.2.trans hp.2⟩

theorem processRow_complete (cfg : Settings) (env : Env) (st : St)
    (row : Row) (h : rowComplete row = true) :
    ∃ res st', processRow cfg env st row =
      (some [(getField row "action").getD "",
             (getField row "username").getD "", res], st') := by
  unfold rowComplete at h
  cases hact : getField row "action" with
  | none =>
    rw [hact] at h
    simp at h
  | some act =>
    rw [hact] at h
    simp only [] at h
    by_cases hc : act = "create"
    · subst hc
      rw [if_pos rfl] at h
      simp [createKeys] at h
      obtain ⟨h1, h2, h3, h4, h5, h6, h7, h8⟩ := h
      obtain ⟨u, hu⟩ := Option.isSome_iff_exists.1 h1
      obtain ⟨ld, hld⟩ := Option.isSome_iff_exists.1 h2
      obtain ⟨udc, hudc⟩ := Option.isSome_iff_exists.1 h3
      obtain ⟨gn, hgn⟩ := Option.isSome_iff_exists.1 h4
      obtain ⟨fn, hfn⟩ := Option.isSome_iff_exists.1 h5
      obtain ⟨sn, hsn⟩ := Option.isSome_iff_exists.1 h6
      obtain ⟨po, hpo⟩ := Option.isSome_iff_exists.1 h7
      obtain ⟨pw, hpw⟩ := Option.isSome_iff_exists.1 h8
      exact ⟨(create cfg env st u ld udc gn fn sn po pw).1,
             (create cfg env st u ld udc gn fn sn po pw).2,
             by simp [processRow, hact, hu, hld, hudc, hgn, hfn, hsn, hpo,
                      hpw]⟩
    · by_cases hup : act = "update"
      · subst hup
        rw [if_neg hc, if_pos rfl] at h
        simp [updateKeys] at h
        obtain ⟨h1, h2, h3, h4, h5, h6, h7⟩ := h
        obtain ⟨u, hu⟩ := Option.isSome_iff_exists.1 h1
        obtain ⟨nu, hnu⟩ := Option.isSome_iff_exists.1 h2
        obtain ⟨ld, hld⟩ := Option.isSome_iff_exists.1 h3
        obtain ⟨gn, hgn⟩ := Option.isSome_iff_exists.1 h4
        obtain ⟨fn, hfn⟩ := Option.isSome_iff_exists.1 h5
        obtain ⟨sn, hsn⟩ := Option.isSome_iff_exists.1 h6
        obtain ⟨po, hpo⟩ := Option.isSome_iff_exists.1 h7
        exact ⟨(update cfg env st u nu ld gn fn sn po).1,
               (update cfg env st u nu ld gn fn sn po).2,
               by simp [processRow, hact, hc, hu, hnu, hld, hgn, hfn, hsn,
                        hpo]⟩
      · rw [if_neg hc, if_neg hup] at h
        simp at h
        obtain ⟨u, hu⟩ := Option.isSome_iff_exists.1 h
        by_cases hd : act = "delete"
        · subst hd
          exact ⟨(delete cfg env st u).1, (delete cfg env st u).2,
                 by simp [processRow, hact, hc, hup, hu]⟩
        · exact ⟨"ERROR: Unrecognized action.", st,
                 by simp [processRow, hact, hc, hup, hd, hu]⟩

theorem runRows_complete (cfg : Settings) (env : Env) :
    ∀ (rows : List Row) (st : St), (∀ r ∈ rows, rowComplete r = true) →
      List.Forall₂ (fun (r : Row) (o : List String) => ∃ res,
          o = [(getField r "action").getD "",
               (getField r "username").getD "", res])
        rows (runRows cfg env st rows).1 := by
  intro rows
  induction rows with
  | nil =>
    intro st h
    simp [runRows]
  | cons row rest ih =>
    intro st h
    obtain ⟨res, st', hp⟩ := processRow_complete cfg env st row
      (h row (List.mem_cons_self row rest))
    simp only [runRows, hp]
    exact List.Forall₂.cons ⟨res, rfl⟩
      (ih st' (fun r hr => h r (List.mem_cons_of_mem _ hr)))

theorem updatePatch_trace (cfg : Settings) (env : Env) (st : St)
    (tok upn : String) (newupn? : Option String)
    (nu ld gn fn sn ou : String) :
    (updatePatch cfg env st tok upn newupn? nu ld gn fn sn ou).2.trace =
      st.trace ++ (match newupn? with
        | none => []
        | some newupn => [patchRequest cfg tok upn (updateBody newupn
            (if ld = "True" then "False" else "True") gn fn sn nu ou)]) := by
  simp only [updatePatch]
  repeat' split
  all_goals simp

theorem update_patch_request_shape (cfg : Settings) (env : Env) (st : St)
    (u nu ld gn fn sn ou : String) (r : Request)
    (hr : r ∈ ((update cfg env st u nu ld gn fn sn ou).2.trace).drop
        st.trace.length)
    (hp : isPatchReq r = true) :
    r.body = ReqBody.json (updateBody (nu ++ "@" ++ cfg.O365DOMAIN)
      (if ld = "True" then "False" else "True") gn fn sn nu ou) := by
  simp only [update] at hr
  repeat' split at hr
  all_goals
    simp only [updatePatch_trace, findUser_snd, graphConnect_trace,
      doRequest_snd_trace, List.append_assoc, List.append_nil,
      List.nil_append, List.drop_left, List.drop_length,
      List.singleton_append, List.cons_append, List.mem_cons,
      List.not_mem_nil, or_false] at hr
  all_goals first
    | exact hr.elim
    | ((rcases hr with rfl | rfl | rfl | rfl) <;> first | rfl | simp at hp)

/-! ### Claim theorems -/

/-- **C1, counterexample.**  The claim says every input row yields exactly
one output row and a row's exception is converted into an error result for
that row only.  In the source, `main`'s `try/except` wraps the whole `for`
loop: a `KeyError` while extracting a row's fields (here: an update row
without a `newusername` key) ends the loop, so neither the failing row nor
the following well-formed row is written — 0 output rows for 2 input
rows. -/
theorem c1_counterexample :
    (runRows cfg0 envExn initState rows0).1.length ≠ rows0.length := by
  decide

/-- **C1 (amended).**  For every batch in which each row carries all the
keys its action reads, the runner writes exactly one output row per input
row, in input order, carrying that row's action and username — for *every*
environment, including ones in which every network call raises, since
exceptions inside the action handlers are caught there and turned into
error results.  (A row missing a required key instead aborts the rest of
the batch, see the counterexample.) -/
theorem c1_batch_rows (cfg : Settings) (env : Env) (st : St)
    (rows : List Row) (h : ∀ r ∈ rows, rowComplete r = true) :
    (runRows cfg env st rows).1.length = rows.length ∧
    List.Forall₂ (fun (r : Row) (o : List String) => ∃ res,
        o = [(getField r "action").getD "",
             (getField r "username").getD "", res])
      rows (runRows cfg env st rows).1 :=
  ⟨(runRows_complete cfg env rows st h).length_eq.symm,
   runRows_complete cfg env rows st h⟩

/-- **C1 witness**: a concrete complete batch processed under an
all-exceptions environment still yields one output row per input row. -/
theorem c1_batch_rows_witness :
    (∀ r ∈ rows1, rowComplete r = true) ∧
    (runRows cfg0 envExn initState rows1).1.length = rows1.length :=
  ⟨by decide, (c1_batch_rows cfg0 envExn initState rows1 (by decide)).1⟩

/-- **C2 (code bug).**  For a non-renaming update (`newusername =
username`, the documented default) whose fields are all non-empty, with a
token cached and the user existing (lookup answers 200), the source never
submits the PATCH: the local `newupn` is only assigned in the rename
branch, so building the request body raises `NameError`, which the blanket
`except` converts into the generic update error — even though the
environment would answer 204 to a PATCH.  The claim (and spec) say the
patch is submitted and 204 yields SUCCESS. -/
theorem c2_nonrename_update_bug :
    (update cfg0 envU st0 "jdoe" "jdoe" "False" "g" "f" "s" "o").1 =
      "ERROR: Could not update o365 user." ∧
    (update cfg0 envU st0 "jdoe" "jdoe" "False" "g" "f" "s"
      "o").2.trace.countP (fun r => isPatchReq r) = 0 :=
  ⟨rfl, by decide⟩

/-- **C3, counterexample.**  The claim says `exists` returns false for any
error including transport failures; in the source a transport exception is
caught and falls through to `return True`, so the lookup reports the user
as existing. -/
theorem c3_counterexample :
    (findUser cfg0 envExn st0 "x@dom.edu").1 = true := rfl

/-- **C3 (amended).**  `exists(principalName)` returns false exactly when
the lookup completes with a non-200 status; on a 200 response *and on any
transport error during the lookup* it returns true. -/
theorem c3_exists_lookup (cfg : Settings) (env : Env) (st : St)
    (upn : String) :
    ((findUser cfg env st upn).1 = false ↔
      ∃ c b, env st.trace.length = Outcome.status c b ∧ c ≠ 200) := by
  cases h : env st.trace.length with
  | status c b =>
    rw [findUser_fst_status cfg upn h]
    constructor
    · intro hb
      exact ⟨c, b, rfl, by simpa using hb⟩
    · rintro ⟨c', b', he, hne⟩
      injection he with hc hb
      subst hc
      simpa using hne
  | exn =>
    rw [findUser_fst_exn cfg upn h]
    constructor
    · intro hb
      exact Bool.noConfusion hb
    · rintro ⟨c', b', he, hne⟩
      exact absurd he (by simp)

/-- **C4, counterexample.**  The claim says at most one authentication
request is issued per run even when acquisition fails.  In the source,
every action that starts with no cached token calls `graphConnect` again:
two create rows under an environment in which the exchange always answers
400 issue two token requests. -/
theorem c4_counterexample :
    ¬ authCount (runRows cfg0 envAuthFail initState
        [createRow, createRow]).2.trace ≤ 1 := by
  decide

/-- **C4 (amended).**  Across a run, at most one authentication request is
issued per processed action row (the exchange is retried by every action
that begins with the token still absent), and from any state in which the
token is present no further authentication request is ever issued. -/
theorem c4_auth_bound (cfg : Settings) (env : Env) (st : St)
    (rows : List Row) :
    authCount (runRows cfg env st rows).2.trace ≤
      authCount st.trace + rows.length ∧
    (isFalsy st.token = false →
      authCount (runRows cfg env st rows).2.trace = authCount st.trace) :=
  ⟨runRows_authCount_le cfg env rows st,
   fun h => (runRows_stable cfg env rows st h).2⟩

/-- **C4 witness**: with a cached token, a concrete two-row batch issues no
authentication request at all. -/
theorem c4_auth_bound_witness :
    authCount (runRows cfg0 envU st0 rows1).2.trace = 0 :=
  (c4_auth_bound cfg0 envU st0 rows1).2 (by decide)

/-- **C5.**  For every create row with all eight fields non-empty, a cached
token, a lookup showing the user absent, and a 201 create response: a
license-assignment status of 200 yields the full-success result, and any
other status still yields a SUCCESS result (user added but unlicensed) —
never an ERROR. -/
theorem c5_license_partial_success (cfg : Settings) (env : Env) (st : St)
    (u ld udc gn fn sn ou pw : String) (c0 c2 : Nat) (b0 b1 b2 : String)
    (hf : ∀ p ∈ createFields u ld udc gn fn sn ou pw, p.2 ≠ "")
    (htok : isFalsy st.token = false)
    (h0 : env st.trace.length = Outcome.status c0 b0) (hc0 : c0 ≠ 200)
    (h1 : env (st.trace.length + 1) = Outcome.status 201 b1)
    (h2 : env (st.trace.length + 2) = Outcome.status c2 b2) :
    (create cfg env st u ld udc gn fn sn ou pw).1 =
      (if c2 = 200 then "SUCCESS: user was created in o365."
       else "SUCCESS: user added but with no licenses in o365.") ∧
    strStarts "SUCCESS:" (create cfg env st u ld udc gn fn sn ou pw).1 =
      true := by
  have hfe : firstEmpty (createFields u ld udc gn fn sn ou pw) = none :=
    (firstEmpty_none_iff _).2 hf
  have hfind : (findUser cfg env st (u ++ "@" ++ cfg.O365DOMAIN)).1 =
      false := by
    rw [findUser_fst_status cfg _ h0]
    simpa using hc0
  have hite : (if isFalsy st.token = true then graphConnect cfg env st
      else st) = st := by
    rw [htok]
    simp
  have h2' : env (st.trace.length + 1 + 1) = Outcome.status c2 b2 := h2
  have key : (create cfg env st u ld udc gn fn sn ou pw).1 =
      (if c2 = 200 then "SUCCESS: user was created in o365."
       else "SUCCESS: user added but with no licenses in o365.") := by
    by_cases hc2 : c2 = 200 <;>
      simp [create, hfe, hite, htok, hfind, h1, h2, h2', hc2, doRequest]
  refine ⟨key, ?_⟩
  rw [key]
  by_cases hc2 : c2 = 200
  · rw [if_pos hc2]
    decide
  · rw [if_neg hc2]
    decide

/-- **C5 witness**: concrete create in which the user is created (201) but
licensing answers 500 — the result is the partial SUCCESS string. -/
theorem c5_license_partial_success_witness :
    (create cfg0 envC5 st0 "u" "False" "1" "g" "f" "s" "o" "p").1 =
      "SUCCESS: user added but with no licenses in o365." := by
  have h := c5_license_partial_success cfg0 envC5 st0 "u" "False" "1" "g"
      "f" "s" "o" "p" 404 500 "" "" "" (by decide) rfl rfl (by decide) rfl
      rfl
  rw [h.1, if_neg (by decide)]

/-- **C6.**  For each action, if any required field is the empty string
(the eight `create` parameters, the seven `update` parameters, `delete`'s
username), the action returns the field-naming missing-value error and the
state — including the request trace — is unchanged: no network call of any
kind is made. -/
theorem c6_missing_field_validation (cfg : Settings) (env : Env) (st : St) :
    (∀ u ld udc gn fn sn ou pw,
       (∃ p ∈ createFields u ld udc gn fn sn ou pw, p.2 = "") →
       ∃ p ∈ createFields u ld udc gn fn sn ou pw, p.2 = "" ∧
         create cfg env st u ld udc gn fn sn ou pw = (missingMsg p.1, st)) ∧
    (∀ u nu ld gn fn sn ou,
       (∃ p ∈ updateFields u nu ld gn fn sn ou, p.2 = "") →
       ∃ p ∈ updateFields u nu ld gn fn sn ou, p.2 = "" ∧
         update cfg env st u nu ld gn fn sn ou = (missingMsg p.1, st)) ∧
    delete cfg env st "" = (missingMsg "username", st) := by
  refine ⟨?_, ?_, ?_⟩
  · intro u ld udc gn fn sn ou pw hex
    obtain ⟨k, hk⟩ := firstEmpty_isSome hex
    exact ⟨(k, ""), firstEmpty_some_mem hk, rfl, by simp [create, hk]⟩
  · intro u nu ld gn fn sn ou hex
    obtain ⟨k, hk⟩ := firstEmpty_isSome hex
    exact ⟨(k, ""), firstEmpty_some_mem hk, rfl, by simp [update, hk]⟩
  · rfl

/-- **C6 witness**: a create call with an empty `loginDisabled` field fails
with a field-naming error and an unchanged state. -/
theorem c6_missing_field_validation_witness :
    ∃ p ∈ createFields "u" "" "1" "g" "f" "s" "o" "pw", p.2 = "" ∧
      create cfg0 envExn initState "u" "" "1" "g" "f" "s" "o" "pw" =
        (missingMsg p.1, initState) :=
  (c6_missing_field_validation cfg0 envExn initState).1 "u" "" "1" "g" "f"
    "s" "o" "pw" (by decide)

/-- **C7.**  For each of the three actions, invoked with valid fields while
the token is absent: acquisition is attempted (exactly the one token
request is issued, to the identity endpoint), and when acquisition fails —
the token still absent afterwards — the action returns the authentication
error with the post-`graphConnect` state, so no directory call is
attempted. -/
theorem c7_auth_gate (cfg : Settings) (env : Env) (st : St)
    (u nu ld udc gn fn sn ou pw : String)
    (hcf : ∀ p ∈ createFields u ld udc gn fn sn ou pw, p.2 ≠ "")
    (huf : ∀ p ∈ updateFields u nu ld gn fn sn ou, p.2 ≠ "")
    (hu : ¬u = "")
    (htok : isFalsy st.token = true)
    (hfail : isFalsy (graphConnect cfg env st).token = true) :
    (graphConnect cfg env st).trace = st.trace ++ [authRequest cfg] ∧
    create cfg env st u ld udc gn fn sn ou pw =
      (authErrMsg, graphConnect cfg env st) ∧
    update cfg env st u nu ld gn fn sn ou =
      (authErrMsg, graphConnect cfg env st) ∧
    delete cfg env st u = (authErrMsg, graphConnect cfg env st) := by
  have hc : firstEmpty (createFields u ld udc gn fn sn ou pw) = none :=
    (firstEmpty_none_iff _).2 hcf
  have hp : firstEmpty (updateFields u nu ld gn fn sn ou) = none :=
    (firstEmpty_none_iff _).2 huf
  refine ⟨graphConnect_trace cfg env st, ?_, ?_, ?_⟩
  · simp [create, hc, htok, hfail]
  · simp [update, hp, htok, hfail]
  · simp [delete, hu, htok, hfail]

/-- **C7 witness**: concrete run with no cached token and an identity
endpoint that answers 400 — all three actions fail with the authentication
error, having issued only the token request. -/
theorem c7_auth_gate_witness :
    (graphConnect cfg0 envAuthFail initState).trace =
      initState.trace ++ [authRequest cfg0] ∧
    create cfg0 envAuthFail initState "x" "F" "1" "g" "f" "s" "o" "pw" =
      (authErrMsg, graphConnect cfg0 envAuthFail initState) ∧
    update cfg0 envAuthFail initState "x" "y" "F" "g" "f" "s" "o" =
      (authErrMsg, graphConnect cfg0 envAuthFail initState) ∧
    delete cfg0 envAuthFail initState "x" =
      (authErrMsg, graphConnect cfg0 envAuthFail initState) :=
  c7_auth_gate cfg0 envAuthFail initState "x" "y" "F" "1" "g" "f" "s" "o"
    "pw" (by decide) (by decide) (by decide) (by decide) (by decide)

/-- **C8.**  Every PATCH request issued by an update action (whatever the
inputs and environment) carries exactly the seven fields principal name,
enabled flag, given name, display name, surname, mail nickname and
department — the immutable identifier is never part of the body. -/
theorem c8_patch_body_no_immutable (cfg : Settings) (env : Env) (st : St)
    (u nu ld gn fn sn ou : String) (r : Request)
    (hr : r ∈ ((update cfg env st u nu ld gn fn sn ou).2.trace).drop
        st.trace.length)
    (hp : isPatchReq r = true) :
    bodyKeys r.body = ["userPrincipalName", "accountEnabled", "givenName",
      "displayName", "surname", "mailNickname", "department"] ∧
    "immutableId" ∉ bodyKeys r.body := by
  have hb := update_patch_request_shape cfg env st u nu ld gn fn sn ou r
    hr hp
  rw [hb]
  have hk : bodyKeys (ReqBody.json (updateBody (nu ++ "@" ++ cfg.O365DOMAIN)
      (if ld = "True" then "False" else "True") gn fn sn nu ou)) =
      ["userPrincipalName", "accountEnabled", "givenName", "displayName",
       "surname", "mailNickname", "department"] := rfl
  rw [hk]
  exact ⟨rfl, by decide⟩

/-- **C8 witness**: a concrete renaming update that reaches the patch step;
the PATCH request it issued has exactly the seven fields and no
`immutableId`. -/
theorem c8_patch_body_no_immutable_witness :
    bodyKeys (patchRequest cfg0 "t" "a@dom.edu" (updateBody "b@dom.edu"
      "True" "g" "f" "s" "b" "o")).body =
      ["userPrincipalName", "accountEnabled", "givenName", "displayName",
       "surname", "mailNickname", "department"] ∧
    "immutableId" ∉ bodyKeys (patchRequest cfg0 "t" "a@dom.edu"
      (updateBody "b@dom.edu" "True" "g" "f" "s" "b" "o")).body :=
  c8_patch_body_no_immutable cfg0 envW st0 "a" "b" "False" "g" "f" "s" "o"
    (patchRequest cfg0 "t" "a@dom.edu"
      (updateBody "b@dom.edu" "True" "g" "f" "s" "b" "o"))
    (by
      have ht : ((update cfg0 envW st0 "a" "b" "False" "g" "f" "s"
          "o").2.trace).drop st0.trace.length =
          [findUserRequest cfg0 "t" "a@dom.edu",
           findUserRequest cfg0 "t" "b@dom.edu",
           patchRequest cfg0 "t" "a@dom.edu"
             (updateBody "b@dom.edu" "True" "g" "f" "s" "b" "o")] := rfl
      rw [ht]
      exact List.mem_cons_of_mem _ (List.mem_cons_of_mem _
        (List.mem_cons_self _ _)))
    rfl

set_option maxHeartbeats 2000000 in
/-- **C9.**  Every output row written by the batch loop — for recognized
and unrecognized actions alike — has the shape `[action, username, result]`
with a result string beginning with `SUCCESS:` or `ERROR:`. -/
theorem c9_result_prefix (cfg : Settings) (env : Env) (st : St) (row : Row)
    (out : List String) (st' : St)
    (h : processRow cfg env st row = (some out, st')) :
    ∃ a u res, out = [a, u, res] ∧ resultOk res = true := by
  simp only [processRow] at h
  repeat' split at h
  all_goals (
    rw [Prod.mk.injEq] at h
    first
      | exact Option.noConfusion h.1
      | (obtain ⟨hout, hst⟩ := h
         rw [Option.some.injEq] at hout
         subst hout
         first
           | exact ⟨_, _, _, rfl, resultOk_create _ _ _ _ _ _ _ _ _ _ _⟩
           | exact ⟨_, _, _, rfl, resultOk_update _ _ _ _ _ _ _ _ _ _⟩
           | exact ⟨_, _, _, rfl, resultOk_delete _ _ _ _⟩
           | exact ⟨_, _, _, rfl, rfl⟩))

/-- **C9 witness**: the output row for a concrete unrecognized-action row
has the three-column shape with an `ERROR:`-prefixed result. -/
theorem c9_result_prefix_witness :
    ∃ a u res, ["bogus", "y", "ERROR: Unrecognized action."] =
      [a, u, res] ∧ resultOk res = true :=
  c9_result_prefix cfg0 envExn st0 [("action", "bogus"), ("username", "y")]
    ["bogus", "y", "ERROR: Unrecognized action."] st0 rfl

/-- **C10.**  The create request body's `accountEnabled` field is the
constant `"true"`, and two create invocations that differ only in the
(non-empty) `loginDisabled` input behave identically — same result, same
token, same issued requests — so the created account's enabled state does
not depend on `loginDisabled`. -/
theorem c10_create_ignores_loginDisabled (cfg : Settings) (env : Env)
    (st : St) (u udc gn fn sn ou pw ld1 ld2 : String)
    (h1 : ld1 ≠ "") (h2 : ld2 ≠ "") :
    create cfg env st u ld1 udc gn fn sn ou pw =
      create cfg env st u ld2 udc gn fn sn ou pw ∧
    ∀ upn, jsonField (createBody upn gn fn sn u ou udc pw)
      "accountEnabled" = some (JVal.str "true") := by
  constructor
  · have hfe : firstEmpty (createFields u ld1 udc gn fn sn ou pw) =
        firstEmpty (createFields u ld2 udc gn fn sn ou pw) := by
      simp [createFields, firstEmpty, h1, h2]
    simp only [create, hfe]
  · intro upn
    rfl

/-- **C10 witness**: a concrete pair of create calls differing only in
`loginDisabled` produce identical results and traces. -/
theorem c10_create_ignores_loginDisabled_witness :
    create cfg0 envC5 st0 "u" "False" "1" "g" "f" "s" "o" "p" =
      create cfg0 envC5 st0 "u" "True" "1" "g" "f" "s" "o" "p" :=
  (c10_create_ignores_loginDisabled cfg0 envC5 st0 "u" "1" "g" "f" "s" "o"
    "p" "False" "True" (by decide) (by decide)).1

end O365
